import Mathlib

/-!
Verification model of the keymaster credential-issuance daemon
(cmd/ssh_usercert_gen/main.go).

The daemon's runtime state, HTTP handlers and authentication logic are
embedded shallowly.  External collaborators that live outside this
repository (the LDAP client, the htpasswd checker, golang.org/x/crypto
openpgp and armor, the tstranex/u2f library, the certgen signing
primitives, crypto/rand) are modelled as oracle fields of an `Env`
record: the handlers' control flow over the oracles' outcomes is exactly
the source's control flow over the corresponding call results.

Go `time.Time` values are modelled as `Int` instants; `a.Before(b)` is
`a < b`.  Go maps are modelled as association lists with `List.lookup`.
Go's net/http response writer is modelled by `Response`: `WriteHeader`
sets the status once, a `Write` with no prior `WriteHeader` implicitly
sets status 200 (as net/http does), and a handler that returns without
writing leaves `status = none` (net/http then sends an empty 200 body).
-/

namespace Keymaster

/-- Opaque handle for a parsed crypto.Signer private key. -/
structure Signer where
  id : Nat
  deriving DecidableEq

/-- Opaque handle for an ssh.Signer obtained via ssh.NewSignerFromSigner. -/
structure SSHSigner where
  id : Nat
  deriving DecidableEq

/-- Opaque handle for the DER encoding of the derived CA certificate. -/
structure CADer where
  id : Nat
  deriving DecidableEq

/-- Opaque handle for the body of a decoded PGP armor block. -/
structure ArmorBody where
  id : Nat
  deriving DecidableEq

/-- Opaque handle for the message returned by openpgp.ReadMessage. -/
structure PGPMessage where
  id : Nat
  deriving DecidableEq

/-- Opaque handle for the decrypted plaintext bytes of the CA key. -/
structure Plaintext where
  id : Nat
  deriving DecidableEq

/-- Opaque handle for the bytes of a decoded PEM PUBLIC KEY block. -/
structure PubKeyDer where
  id : Nat
  deriving DecidableEq

/-- Opaque handle for a parsed PKIX public key. -/
structure PubKey where
  id : Nat
  deriving DecidableEq

/-- Opaque handle for the parsed CA x509.Certificate. -/
structure CACert where
  id : Nat
  deriving DecidableEq

/-- Opaque handle for a u2f.Challenge. -/
structure Challenge where
  id : Nat
  deriving DecidableEq

/-- Opaque handle for a u2f.Registration. -/
structure Registration where
  id : Nat
  deriving DecidableEq

/-- Opaque handle for a decoded u2f.SignResponse. -/
structure SignResponse where
  id : Nat
  deriving DecidableEq

/-- Opaque handle for a decoded u2f.RegisterResponse. -/
structure RegisterResponse where
  id : Nat
  deriving DecidableEq

/-- baseConfig, main.go 43-54. -/
structure baseConfig where
  HttpAddress : String := ""
  TLSCertFilename : String := ""
  TLSKeyFilename : String := ""
  UserAuth : String := ""
  SSHCAFilename : String := ""
  HtpasswdFilename : String := ""
  ClientCAFilename : String := ""
  HostIdentity : String := ""
  KerberosRealm : String := ""
  DataDirectory : String := ""
  deriving DecidableEq

/-- LdapConfig, main.go 56-59. -/
structure LdapConfig where
  Bind_Pattern : String := ""
  LDAP_Target_URLs : String := ""
  deriving DecidableEq

/-- AppConfigFile, main.go 61-64. -/
structure AppConfigFile where
  Base : baseConfig := {}
  Ldap : LdapConfig := {}
  deriving DecidableEq

/-- authInfo, main.go 66-69.  ExpiresAt is a time instant. -/
structure authInfo where
  ExpiresAt : Int
  Username : String
  deriving DecidableEq

/-- u2fAuthData, main.go 71-74.  Counter is a uint32 value. -/
structure u2fAuthData where
  Counter : Nat
  Registration : Registration
  deriving DecidableEq

/-- userProfile, main.go 76-80.  U2fAuthData and RegistrationChallenge are
exported Go fields; u2fAuthChallenge is unexported. -/
structure userProfile where
  U2fAuthData : List u2fAuthData := []
  RegistrationChallenge : Option Challenge := none
  u2fAuthChallenge : Option Challenge := none
  deriving DecidableEq

/-- RuntimeState, main.go 82-93.  The Mutex and the ClientCAPool are not
modelled (handlers run one at a time here; the pool is only consulted by
the TLS layer, whose verdict appears as Request.tls).  `diskProfiles` is
the decoded content of `<data_directory>/userProfiles.gob`, the file
written by SaveUserProfiles. -/
structure RuntimeState where
  Config : AppConfigFile := {}
  SSHCARawFileContent : String := ""
  Signer : Option Signer := none
  HostIdentity : String := ""
  KerberosRealm : Option String := none
  caCertDer : Option CADer := none
  authCookie : List (String × authInfo) := []
  userProfile : List (String × userProfile) := []
  diskProfiles : Option (List (String × Keymaster.userProfile)) := none
  deriving DecidableEq

/-- A client certificate of a verified chain (only the subject common name
is ever read, for logging). -/
structure VerifiedCert where
  commonName : String := ""
  deriving DecidableEq

/-- The connection's TLS state: r.TLS in Go. -/
structure TLSState where
  VerifiedChains : List (List VerifiedCert) := []
  deriving DecidableEq

/-- The model of http.ResponseWriter plus the written body. -/
structure Response where
  status : Option Nat := none
  headers : List (String × String) := []
  body : String := ""
  deriving DecidableEq

def Response.empty : Response := {}

/-- WriteHeader: the first call sets the status, later calls are ignored
(net/http logs and drops superfluous WriteHeader calls). -/
def Response.writeHeader (w : Response) (code : Nat) : Response :=
  match w.status with
  | some _ => w
  | none => { w with status := some code }

/-- Write: an implicit WriteHeader(200) happens if none was sent yet. -/
def Response.write (w : Response) (s : String) : Response :=
  let w2 := w.writeHeader 200
  { w2 with body := w2.body ++ s }

def Response.setHeader (w : Response) (key value : String) : Response :=
  { w with headers := (key, value) :: w.headers.filter (fun p => p.1 != key) }

/-- The parts of an http.Request the handlers consult.  `form` is the
parsed r.Form multimap; `formFile` is the content of the multipart field
"pubkeyfile" (none models r.FormFile returning an error); `body` is the
raw request body consumed by the u2f JSON decoders. -/
structure Request where
  method : String := "GET"
  path : String := "/"
  cookies : List (String × String) := []
  basicAuth : Option (String × String) := none
  accept : Option (List String) := none
  form : List (String × List String) := []
  formFile : Option String := none
  body : String := ""
  tls : Option TLSState := none
  deriving DecidableEq

/-- Outcome of authutil.ParseLDAPURL followed by
authutil.CheckLDAPUserPassword for one configured URL (both external to
this file's source): a parse failure, a transport-level failure (the
error return), or a completed bind exchange with its verdict. -/
inductive LdapOutcome where
  | parseError
  | transportError
  | bindResult (valid : Bool)
  deriving DecidableEq

/-- Outcome of ioutil.ReadFile on the htpasswd file followed by
authutil.CheckHtpasswdUserPassword: a read error, a check error, or the
password verdict.  The messages are the Go error strings. -/
inductive HtpasswdOutcome where
  | readError (msg : String)
  | checkError (msg : String)
  | result (valid : Bool)
  deriving DecidableEq

/-- The oracle environment: one field per external call the handlers
make.  Handlers are deterministic functions of the environment, the
current time, the runtime state and the request. -/
structure Env where
  checkLDAPUserPassword : String → String → String → LdapOutcome
  htpasswd : HtpasswdOutcome
  parseFormOk : Bool
  parseMultipartFormOk : Bool
  newSignerFromSigner : Signer → Option SSHSigner
  genSSHCertFromSSSD : String → SSHSigner → String → Option String
  genSSHCertFromString : String → String → SSHSigner → String → Option String
  pemDecodePublicKey : String → Option PubKeyDer
  parsePKIXPublicKey : PubKeyDer → Option PubKey
  parseCertificate : Option CADer → Option CACert
  genUserX509Cert : String → PubKey → CACert → Signer → Option String
  pemEncodeCert : Option CADer → String
  genRandomString : Option String
  armorDecode : String → Option ArmorBody
  readMessage : ArmorBody → String → Option PGPMessage
  readAll : PGPMessage → Option Plaintext
  getSignerFromPEMBytes : Plaintext → Option Signer
  genSelfSignedCACert : String → String → Signer → Option CADer
  newChallenge : Option Challenge
  u2fRegister : RegisterResponse → Challenge → Option Registration
  authenticate : Registration → SignResponse → Challenge → Nat → Option Nat
  decodeSignResponse : String → Except String SignResponse
  decodeRegisterResponse : String → Except String RegisterResponse
  encodeWebRegisterRequest : Challenge → List Registration → String
  encodeSignRequest : Challenge → List Registration → String

/-- Path constants, main.go 430, 633, 722, 741, 791, 1184. -/
def CERTGEN_PATH : String := "/certgen/"

def SECRETINJECTOR_PATH : String := "/admin/inject"

def PUBLIC_PATH : String := "/public/"

def loginFormPath : String := "/public/loginForm"

def LOGIN_PATH : String := "/api/v0/login"

def profilePath : String := "/profile/"

def userProfileFilename : String := "userProfiles.gob"

def authCookieName : String := "auth_cookie"

def maxAgeSecondsAuthCookie : Int := 300

/-- Prefix test on char lists (structural, kernel-computable). -/
def charsPrefix : List Char → List Char → Bool
  | [], _ => true
  | _ :: _, [] => false
  | p :: ps, c :: cs => p == c && charsPrefix ps cs

/-- strings.Contains (byte-based in Go; identical on chars for the ASCII
needles used here). -/
def containsSubstr (s sub : String) : Bool :=
  (List.range (s.toList.length + 1)).any fun i => charsPrefix sub.toList (s.toList.drop i)

/-- getPreferredAcceptType, main.go 314-326. -/
def getPreferredAcceptType (r : Request) : String :=
  match r.accept with
  | none => "application/json"
  | some values =>
    values.foldl
      (fun acc v => if containsSubstr v "text/html" then "text/html" else acc)
      "application/json"

/-- http.StatusText for the codes this program produces. -/
def statusText (code : Nat) : String :=
  if code = 400 then "Bad Request"
  else if code = 401 then "Unauthorized"
  else if code = 403 then "Forbidden"
  else if code = 404 then "Not Found"
  else if code = 405 then "Method Not Allowed"
  else if code = 409 then "Conflict"
  else if code = 500 then "Internal Server Error"
  else ""

/-- loginFormText, main.go 725-739 (braces of the template placeholder
written as hex escapes). -/
def loginFormText : String :=
  "\n<html>\n    <head>\n\t<meta charset=\"UTF-8\">\n\t<title>\x7b\x7b.Title\x7d\x7d</title>\n    </head>\n    <body>\n\t<form enctype=\"application/x-www-form-urlencoded\" action=\"/api/v0/login\" method=\"post\">\n\t    <p>Username: <INPUT TYPE=\"text\" NAME=\"username\" SIZE=18></p>\n\t    <p>Password: <INPUT TYPE=\"password\" NAME=\"password\" SIZE=18></p>\n\t    <p><input type=\"submit\" value=\"Submit\" /></p>\n\t</form>\n    </body>\n</html>\n"

/-- writeFailureResponse, main.go 328-348. -/
def writeFailureResponse (r : Request) (w : Response) (code : Nat) (message : String) :
    Response :=
  let returnAcceptType := getPreferredAcceptType r
  let w :=
    if code = 401 ∧ returnAcceptType ≠ "text/html" then
      w.setHeader "WWW-Authenticate" "Basic realm=\"User Credentials\""
    else w
  let w := w.writeHeader code
  let publicErrorText := toString code ++ " " ++ statusText code ++ " " ++ message ++ "\n"
  if code = 401 then
    if returnAcceptType = "text/html" then w.write loginFormText
    else w.write publicErrorText
  else w.write publicErrorText

/-- http.Error: writes the code and the message followed by a newline. -/
def httpError (w : Response) (msg : String) (code : Nat) : Response :=
  (w.writeHeader code).write (msg ++ "\n")

/-- http.NotFound. -/
def httpNotFound (w : Response) : Response :=
  (w.writeHeader 404).write "404 page not found\n"

/-- Substitute the username for the first %s of the bind pattern. -/
def bindDNSubst (username : List Char) : List Char → List Char
  | [] => []
  | c :: rest =>
    match rest with
    | [] => [c]
    | c2 :: rest2 =>
      if c = '%' ∧ c2 = 's' then username ++ rest2
      else c :: bindDNSubst username rest

/-- convertToBindDN, main.go 267-269: fmt.Sprintf(bind_pattern, username)
for a pattern holding a single %s verb (the first %s is substituted). -/
def convertToBindDN (username bind_pattern : String) : String :=
  ⟨bindDNSubst username.toList bind_pattern.toList⟩

/-- strings.Split(s, ",") with Go semantics: the empty string yields a
single empty field; every comma starts a new field. -/
def splitOnCommaChars : List Char → List (List Char)
  | [] => [[]]
  | c :: rest =>
    if c = ',' then [] :: splitOnCommaChars rest
    else
      match splitOnCommaChars rest with
      | [] => [[c]]
      | h :: t => (c :: h) :: t

def splitOnComma (s : String) : List String :=
  (splitOnCommaChars s.toList).map fun l => ⟨l⟩

/-- The URL loop of checkUserPassword, main.go 278-295: skip empty
entries, skip parse failures and transport errors, return the verdict of
the first completed bind exchange. -/
def ldapLoop (env : Env) (bindDN password : String) : List String → Option Bool
  | [] => none
  | ldapUrl :: rest =>
    if ldapUrl.length < 1 then ldapLoop env bindDN password rest
    else
      match env.checkLDAPUserPassword ldapUrl bindDN password with
      | .parseError => ldapLoop env bindDN password rest
      | .transportError => ldapLoop env bindDN password rest
      | .bindResult valid => some valid

/-- checkUserPassword, main.go 271-311.  The Go pair (bool, error) is
`Bool × Option String`. -/
def checkUserPassword (env : Env) (username password : String) (config : AppConfigFile) :
    Bool × Option String :=
  let bindDN := convertToBindDN username config.Ldap.Bind_Pattern
  match ldapLoop env bindDN password (splitOnComma config.Ldap.LDAP_Target_URLs) with
  | some valid => (valid, none)
  | none =>
    if config.Base.HtpasswdFilename ≠ "" then
      match env.htpasswd with
      | .readError msg => (false, some msg)
      | .checkError msg => (false, some msg)
      | .result valid => (valid, none)
    else (false, none)

/-- The cookie scan of checkAuth, main.go 353-359: the last cookie named
auth_cookie wins. -/
def findAuthCookie (cookies : List (String × String)) : Option String :=
  cookies.foldl (fun acc c => if c.1 = authCookieName then some c.2 else acc) none

/-- checkAuth, main.go 351-407. -/
def checkAuth (env : Env) (now : Int) (r : Request) (state : RuntimeState) (w : Response) :
    Except String String × Response :=
  match findAuthCookie r.cookies with
  | none =>
    match r.basicAuth with
    | none =>
      (.error "check_Auth, Invalid or no auth header", writeFailureResponse r w 401 "")
    | some (user, pass) =>
      match checkUserPassword env user pass state.Config with
      | (_, some err) => (.error err, writeFailureResponse r w 500 "")
      | (valid, none) =>
        if valid then (.ok user, w)
        else (.error "Invalid Credentials", writeFailureResponse r w 401 "")
  | some cookieValue =>
    match state.authCookie.lookup cookieValue with
    | none => (.error "Invalid Cookie", writeFailureResponse r w 401 "")
    | some info =>
      if info.ExpiresAt < now then
        (.error "Expired Cookie", writeFailureResponse r w 401 "")
      else (.ok info.Username, w)

/-- Assignment into a Go map: replace the binding if the key exists, add
it otherwise. -/
def setMap {α : Type} (m : List (String × α)) (k : String) (v : α) : List (String × α) :=
  match m with
  | [] => [(k, v)]
  | p :: rest => if p.1 = k then (k, v) :: rest else p :: setMap rest k v

/-- Encoding one profile with encoding/gob and decoding it back
(SaveUserProfiles and LoadUserProfiles, main.go 409-428).  gob transmits
exported struct fields only: of userProfile (main.go 76-80) the fields
U2fAuthData and RegistrationChallenge are exported and survive the round
trip, while u2fAuthChallenge is unexported, is never encoded, and
decodes to its zero value nil. -/
def gobProfileRoundTrip (p : userProfile) : userProfile :=
  { U2fAuthData := p.U2fAuthData
    RegistrationChallenge := p.RegistrationChallenge
    u2fAuthChallenge := none }

/-- SaveUserProfiles, main.go 409-415: gob-encode the whole profile map
and overwrite `<data_directory>/userProfiles.gob` (the encode error is
ignored by the source).  The disk content is modelled already decoded. -/
def SaveUserProfiles (state : RuntimeState) : RuntimeState :=
  { state with
    diskProfiles := some (state.userProfile.map fun kv => (kv.1, gobProfileRoundTrip kv.2)) }

/-- generateCADer, main.go 126-132: organization is the realm when set,
else the host identity; the certificate creation itself is the external
certgen.GenSelfSignedCACert. -/
def generateCADer (env : Env) (state : RuntimeState) (keySigner : Signer) : Option CADer :=
  let organizationName := state.KerberosRealm.getD state.HostIdentity
  env.genSelfSignedCACert state.HostIdentity organizationName keySigner

/-- getRegistrationArray, main.go 919-924. -/
def getRegistrationArray (l : List u2fAuthData) : List Registration :=
  l.map fun d => d.Registration

/-- The newline character, kept under a name so the regex model below
can refer to it. -/
def newlineChar : Char := Char.ofNat 10

/-- The character class [a-zA-Z0-9/+] of the pubkeyfile regex. -/
def isPubkeyB64Char (c : Char) : Bool :=
  c.isAlphanum || c == '/' || c == '+'

/-- Matches the regex tail `.{0,512}\n?$` against r (RE2: the dot never
matches a newline, `$` is the end of the text). -/
def dotNlTailMatch (r : List Char) : Bool :=
  let core := if r.getLast? == some newlineChar then r.dropLast else r
  decide (core.length ≤ 512) && core.all (fun c => c != newlineChar)

/-- Matches the regex tail `=?=? ?.{0,512}\n?$` against r by trying
every number d1 of equals signs and d2 of spaces the optional pieces
could consume. -/
def eqSpDotMatch (r : List Char) : Bool :=
  (List.range 3).any fun d1 =>
    (List.range 2).any fun d2 =>
      decide (d1 + d2 ≤ r.length) &&
      (r.take d1).all (fun c => c == '=') &&
      ((r.drop d1).take d2).all (fun c => c == ' ') &&
      dotNlTailMatch (r.drop (d1 + d2))

/-- Matches `[a-zA-Z0-9/+]+=?=? ?.{0,512}\n?$` against rest: some
nonempty b64 run of length k, then the tail. -/
def pubkeyRestMatch (rest : List Char) : Bool :=
  (List.range (rest.length + 1)).any fun k =>
    decide (1 ≤ k) && (rest.take k).all isPubkeyB64Char && eqSpDotMatch (rest.drop k)

def sshKeyAlgos : List String := ["ssh-rsa", "ssh-dss", "ecdsa-sha2-nistp256", "ssh-ed25519"]

/-- The pubkeyfile validation of postAuthSSHCertHandler, main.go 548:
regexp.MatchString of
`^(ssh-rsa|ssh-dss|ecdsa-sha2-nistp256|ssh-ed25519) [a-zA-Z0-9/+]+=?=? ?.{0,512}\n?$`.
Both ends are anchored, so this is a full match; the constant pattern
always compiles, so the MatchString error branch (main.go 549-553) is
dead and not modelled. -/
def pubkeyPatternMatch (s : String) : Bool :=
  sshKeyAlgos.any fun algo =>
    charsPrefix (algo ++ " ").toList s.toList &&
      pubkeyRestMatch (s.toList.drop (algo.toList.length + 1))

/-- The certificate type selection of certGenHandler, main.go 496-499:
the first value of the form field "type", defaulting to ssh. -/
def certTypeOf (r : Request) : String :=
  match r.form.lookup "type" with
  | some (v :: _) => v
  | _ => "ssh"

/-- The common success tail of the certificate handlers, main.go 573-575
and 627-629: the attachment header, status 200 and the certificate
body. -/
def sendCertResponse (w : Response) (filename cert : String) : Response :=
  let w := w.setHeader "Content-Disposition" ("attachment; filename=\"" ++ filename ++ "\"")
  let w := w.writeHeader 200
  w.write cert

/-- postAuthSSHCertHandler, main.go 520-578.  The state is read-only in
the source, so only the response is produced. -/
def postAuthSSHCertHandler (env : Env) (state : RuntimeState) (r : Request)
    (w : Response) (targetUser : String) (keySigner : Signer) : Response :=
  match env.newSignerFromSigner keySigner with
  | none => writeFailureResponse r w 500 ""
  | some signer =>
    match r.method with
    | "GET" =>
      match env.genSSHCertFromSSSD targetUser signer state.HostIdentity with
      | none => httpNotFound w
      | some cert => sendCertResponse w "id_rsa-cert.pub" cert
    | "POST" =>
      match r.formFile with
      | none => writeFailureResponse r w 400 "Missing public key file"
      | some userPubKey =>
        if pubkeyPatternMatch userPubKey then
          match env.genSSHCertFromString targetUser userPubKey signer state.HostIdentity with
          | none => writeFailureResponse r w 500 ""
          | some cert => sendCertResponse w "id_rsa-cert.pub" cert
        else writeFailureResponse r w 400 "Invalid File, bad re"
    | _ => writeFailureResponse r w 405 ""

/-- postAuthX509CertHandler, main.go 580-631.  State read-only. -/
def postAuthX509CertHandler (env : Env) (state : RuntimeState) (r : Request)
    (w : Response) (targetUser : String) (keySigner : Signer) : Response :=
  match r.method with
  | "POST" =>
    match r.formFile with
    | none => writeFailureResponse r w 400 "Missing public key file"
    | some content =>
      match env.pemDecodePublicKey content with
      | none => writeFailureResponse r w 400 "Invalid File, Unable to decode pem"
      | some der =>
        match env.parsePKIXPublicKey der with
        | none => writeFailureResponse r w 400 "Cannot parse public key"
        | some userPub =>
          match env.parseCertificate state.caCertDer with
          | none => writeFailureResponse r w 500 ""
          | some caCert =>
            match env.genUserX509Cert targetUser userPub caCert keySigner with
            | none => writeFailureResponse r w 500 ""
            | some cert => sendCertResponse w "userCert.pem" cert
  | _ => writeFailureResponse r w 405 ""

/-- certGenHandler, main.go 432-518.  The source never writes any state
field, so the handler produces only a response. -/
def certGenHandler (env : Env) (now : Int) (state : RuntimeState) (r : Request) :
    Response :=
  match state.Signer with
  | none => writeFailureResponse r Response.empty 500 ""
  | some keySigner =>
    match checkAuth env now r state Response.empty with
    | (.error _, w) => w
    | (.ok authUser, w) =>
      let targetUser := r.path.drop CERTGEN_PATH.length
      if authUser ≠ targetUser then writeFailureResponse r w 403 ""
      else
        let parseOk :=
          match r.method with
          | "GET" => some env.parseFormOk
          | "POST" => some env.parseMultipartFormOk
          | _ => none
        match parseOk with
        | none => writeFailureResponse r w 405 ""
        | some false => writeFailureResponse r w 400 "Error parsing form"
        | some true =>
          match certTypeOf r with
          | "ssh" => postAuthSSHCertHandler env state r w targetUser keySigner
          | "x509" => postAuthX509CertHandler env state r w targetUser keySigner
          | _ => writeFailureResponse r w 400 "Unrecognized cert type"

/-- The credential extraction of loginHandler, main.go 836-861: basic
auth wins; otherwise the form fields, refusing multiple values, and 401
when either is empty. -/
def loginUsernamePassword (r : Request) : Except (Nat × String) (String × String) :=
  match r.basicAuth with
  | some (u, p) => .ok (u, p)
  | none =>
    let uvals := (r.form.lookup "username").getD []
    if uvals.length > 1 then .error (400, "Just one username allowed")
    else
      let pvals := (r.form.lookup "password").getD []
      if pvals.length > 1 then .error (400, "Just one password allowed")
      else
        let username := uvals.headD ""
        let password := pvals.headD ""
        if username.length < 1 ∨ password.length < 1 then .error (401, "")
        else .ok (username, password)

/-- loginHandler, main.go 793-915.  The accept negotiation at 896-905 is
the same logic as getPreferredAcceptType.  The cookie attributes
(Expires, Path, HttpOnly, Secure) are not inspected by any claim and the
Set-Cookie header carries only name=value here. -/
def loginHandler (env : Env) (now : Int) (state : RuntimeState) (r : Request) :
    Response × RuntimeState :=
  match state.Signer with
  | none => (writeFailureResponse r Response.empty 500 "", state)
  | some _ =>
    let parseOk :=
      match r.method with
      | "GET" => some env.parseFormOk
      | "POST" => some env.parseFormOk
      | _ => none
    match parseOk with
    | none => (writeFailureResponse r Response.empty 405 "", state)
    | some false => (writeFailureResponse r Response.empty 400 "Error parsing form", state)
    | some true =>
      match loginUsernamePassword r with
      | .error (code, msg) => (writeFailureResponse r Response.empty code msg, state)
      | .ok (username, password) =>
        match checkUserPassword env username password state.Config with
        | (_, some _) => (writeFailureResponse r Response.empty 500 "", state)
        | (valid, none) =>
          if valid then
            match env.genRandomString with
            | none => (writeFailureResponse r Response.empty 500 "error internal", state)
            | some cookieVal =>
              let expiration := now + maxAgeSecondsAuthCookie
              let savedUserInfo : authInfo := { ExpiresAt := expiration, Username := username }
              let state :=
                { state with authCookie := setMap state.authCookie cookieVal savedUserInfo }
              let w := Response.empty.setHeader "Set-Cookie" (authCookieName ++ "=" ++ cookieVal)
              if getPreferredAcceptType r = "text/html" then
                (((w.setHeader "Location" profilePath).writeHeader 302), state)
              else ((w.writeHeader 200).write "Success!", state)
          else (writeFailureResponse r Response.empty 401 "", state)

/-- publicPathHandler, main.go 743-775.  State read-only. -/
def publicPathHandler (env : Env) (state : RuntimeState) (r : Request) : Response :=
  match state.Signer with
  | none => writeFailureResponse r Response.empty 500 ""
  | some _ =>
    let target := r.path.drop PUBLIC_PATH.length
    match target with
    | "loginForm" => (Response.empty.writeHeader 200).write loginFormText
    | "x509ca" =>
      let pemCert := env.pemEncodeCert state.caCertDer
      let w :=
        Response.empty.setHeader "Content-Disposition" "attachment; filename=\"id_rsa-cert.pub\""
      (w.writeHeader 200).write pemCert
    | _ => writeFailureResponse r Response.empty 404 ""

/-- secretInjectorHandler, main.go 635-720.  The four decryption-stage
failures log and return without writing anything (the client then sees
an implicit empty 200 from net/http, modelled as Response.empty).  When
generateCADer fails, the Go multi-assignment has already overwritten
state.caCertDer with the nil result before the error return. -/
def secretInjectorHandler (env : Env) (state : RuntimeState) (r : Request) :
    Response × RuntimeState :=
  match r.tls with
  | none => (writeFailureResponse r Response.empty 500 "", state)
  | some tlsState =>
    if tlsState.VerifiedChains.length < 1 then
      (writeFailureResponse r Response.empty 403 "", state)
    else
      match r.form.lookup "ssh_ca_password" with
      | none => (writeFailureResponse r Response.empty 400 "Invalid Post, missing data", state)
      | some sshCAPassword =>
        match state.Signer with
        | some _ =>
          (writeFailureResponse r Response.empty 409 "Conflict post, signer already unlocked",
           state)
        | none =>
          match env.armorDecode state.SSHCARawFileContent with
          | none => (Response.empty, state)
          | some armorBlock =>
            let password := sshCAPassword.headD ""
            match env.readMessage armorBlock password with
            | none => (Response.empty, state)
            | some md =>
              match env.readAll md with
              | none => (Response.empty, state)
              | some plaintextBytes =>
                match env.getSignerFromPEMBytes plaintextBytes with
                | none => (Response.empty, state)
                | some signer =>
                  match generateCADer env state signer with
                  | none => (Response.empty, { state with caCertDer := none })
                  | some der =>
                    ((Response.empty.writeHeader 200).write "OK\n",
                     { state with caCertDer := some der, Signer := some signer })

/-- The prompt closure built inside secretInjectorHandler, main.go
676-687: the captured boolean `failed` starts false; the first call
hands out the candidate passphrase and flips it; once it is set every
call fails. -/
def injectorPrompt (password : String) (failed : Bool) : Except String String × Bool :=
  if failed then (.error "decryption failed", failed)
  else (.ok password, true)

/-- The captured `failed` flag before the (n+1)-th invocation of the
prompt. -/
def promptState (password : String) : Nat → Bool
  | 0 => false
  | n + 1 => (injectorPrompt password (promptState password n)).2

/-- The result of the (n+1)-th invocation of the prompt during one
unseal attempt. -/
def promptResult (password : String) (n : Nat) : Except String String :=
  (injectorPrompt password (promptState password n)).1

/-- u2fRegisterRequest, main.go 928-972. -/
def u2fRegisterRequest (env : Env) (now : Int) (state : RuntimeState) (r : Request) :
    Response × RuntimeState :=
  match state.Signer with
  | none => (writeFailureResponse r Response.empty 500 "", state)
  | some _ =>
    match checkAuth env now r state Response.empty with
    | (.error _, w) => (w, state)
    | (.ok authUser, w) =>
      let profile := (state.userProfile.lookup authUser).getD {}
      match env.newChallenge with
      | none => (httpError w "error" 500, state)
      | some c =>
        let profile := { profile with RegistrationChallenge := some c }
        let registrations := getRegistrationArray profile.U2fAuthData
        let state := { state with userProfile := setMap state.userProfile authUser profile }
        (w.write (env.encodeWebRegisterRequest c registrations), state)

/-- u2fRegisterResponse, main.go 976-1040. -/
def u2fRegisterResponse (env : Env) (now : Int) (state : RuntimeState) (r : Request) :
    Response × RuntimeState :=
  match state.Signer with
  | none => (writeFailureResponse r Response.empty 500 "", state)
  | some _ =>
    match checkAuth env now r state Response.empty with
    | (.error _, w) => (w, state)
    | (.ok authUser, w) =>
      match env.decodeRegisterResponse r.body with
      | .error e => (httpError w ("invalid response: " ++ e) 400, state)
      | .ok regResp =>
        let profile := (state.userProfile.lookup authUser).getD {}
        match profile.RegistrationChallenge with
        | none => (httpError w "challenge not found" 400, state)
        | some challenge =>
          match env.u2fRegister regResp challenge with
          | none => (httpError w "error verifying response" 500, state)
          | some reg =>
            let profile :=
              { profile with
                U2fAuthData := profile.U2fAuthData ++ [{ Counter := 0, Registration := reg }]
                RegistrationChallenge := none }
            let state := { state with userProfile := setMap state.userProfile authUser profile }
            let state := SaveUserProfiles state
            (w.write "success", state)

/-- u2fSignRequest, main.go 1044-1100. -/
def u2fSignRequest (env : Env) (now : Int) (state : RuntimeState) (r : Request) :
    Response × RuntimeState :=
  match state.Signer with
  | none => (writeFailureResponse r Response.empty 500 "", state)
  | some _ =>
    match checkAuth env now r state Response.empty with
    | (.error _, w) => (w, state)
    | (.ok authUser, w) =>
      match state.userProfile.lookup authUser with
      | none => (httpError w "No regstered data" 400, state)
      | some profile =>
        let registrations := getRegistrationArray profile.U2fAuthData
        if registrations.length < 1 then (httpError w "registration missing" 400, state)
        else
          match env.newChallenge with
          | none => (httpError w "error" 500, state)
          | some c =>
            let profile := { profile with u2fAuthChallenge := some c }
            let state := { state with userProfile := setMap state.userProfile authUser profile }
            (w.write (env.encodeSignRequest c registrations), state)

/-- The registration loop of u2fSignResponse, main.go 1162-1178: try the
registrations in order with their stored counters; the first success
yields the list with only that entry's counter replaced by the value the
authenticator reported. -/
def authLoop (env : Env) (signResp : SignResponse) (challenge : Challenge) :
    List u2fAuthData → Option (List u2fAuthData)
  | [] => none
  | d :: rest =>
    match env.authenticate d.Registration signResp challenge d.Counter with
    | some newCounter => some ({ d with Counter := newCounter } :: rest)
    | none =>
      match authLoop env signResp challenge rest with
      | some rest2 => some (d :: rest2)
      | none => none

/-- u2fSignResponse, main.go 1104-1182.  The second nil check on the
registration array (main.go 1156-1159) is subsumed by the length check
just before it (a slice of length ≥ 1 is never nil) and is dropped. -/
def u2fSignResponse (env : Env) (now : Int) (state : RuntimeState) (r : Request) :
    Response × RuntimeState :=
  match state.Signer with
  | none => (writeFailureResponse r Response.empty 500 "", state)
  | some _ =>
    match checkAuth env now r state Response.empty with
    | (.error _, w) => (w, state)
    | (.ok authUser, w) =>
      match env.decodeSignResponse r.body with
      | .error e => (httpError w ("invalid response: " ++ e) 400, state)
      | .ok signResp =>
        match state.userProfile.lookup authUser with
        | none => (httpError w "No regstered data" 400, state)
        | some profile =>
          let registrations := getRegistrationArray profile.U2fAuthData
          if registrations.length < 1 then (httpError w "registration missing" 400, state)
          else
            match profile.u2fAuthChallenge with
            | none => (httpError w "challenge missing" 400, state)
            | some challenge =>
              match authLoop env signResp challenge profile.U2fAuthData with
              | some newData =>
                let profile :=
                  { profile with U2fAuthData := newData, u2fAuthChallenge := none }
                let state :=
                  { state with userProfile := setMap state.userProfile authUser profile }
                let state := SaveUserProfiles state
                (w.write "success", state)
              | none => (httpError w "error verifying response" 500, state)

/-- indexHTML, main.go 1186-1260: a static FIDO demo page whose text no
claim inspects; the body is stood in for by a short marker string. -/
def indexHTML : String := "(FIDO U2F demo page)"

/-- profileHandler, main.go 1262-1287.  State read-only. -/
def profileHandler (env : Env) (now : Int) (state : RuntimeState) (r : Request) :
    Response :=
  match state.Signer with
  | none => writeFailureResponse r Response.empty 500 ""
  | some _ =>
    match checkAuth env now r state Response.empty with
    | (.error _, w) => w
    | (.ok _, w) => w.write indexHTML

/-- One pass of the background expirer performStateCleanup, main.go
134-152: delete every cookie whose expiry is before now. -/
def performStateCleanupStep (now : Int) (state : RuntimeState) : RuntimeState :=
  { state with authCookie := state.authCookie.filter fun kv => !(decide (kv.2.ExpiresAt < now)) }

/-! Concrete values used by the witnesses. -/

/-- A benign default environment for witnesses. -/
def env0 : Env where
  checkLDAPUserPassword := fun _ _ _ => .parseError
  htpasswd := .result false
  parseFormOk := true
  parseMultipartFormOk := true
  newSignerFromSigner := fun _ => some ⟨0⟩
  genSSHCertFromSSSD := fun _ _ _ => some "sshcert"
  genSSHCertFromString := fun _ _ _ _ => some "sshcert"
  pemDecodePublicKey := fun _ => none
  parsePKIXPublicKey := fun _ => none
  parseCertificate := fun _ => none
  genUserX509Cert := fun _ _ _ _ => none
  pemEncodeCert := fun _ => "pemcert"
  genRandomString := some "cookievalue"
  armorDecode := fun _ => some ⟨0⟩
  readMessage := fun _ _ => some ⟨0⟩
  readAll := fun _ => some ⟨0⟩
  getSignerFromPEMBytes := fun _ => some ⟨0⟩
  genSelfSignedCACert := fun _ _ _ => some ⟨0⟩
  newChallenge := some ⟨0⟩
  u2fRegister := fun _ _ => some ⟨0⟩
  authenticate := fun _ _ _ _ => none
  decodeSignResponse := fun _ => .error "bad json"
  decodeRegisterResponse := fun _ => .error "bad json"
  encodeWebRegisterRequest := fun _ _ => "registerRequestJSON"
  encodeSignRequest := fun _ _ => "signRequestJSON"

/-- A sealed runtime state (Signer nil). -/
def stSealed : RuntimeState := {}

/-- A plain request. -/
def req0 : Request := {}

/-! Claim theorems. -/

/-- C1: for every request to /certgen/, /api/v0/login, /public/
(including /public/loginForm), /u2f/RegisterRequest,
/u2f/RegisterResponse, /u2f/SignRequest, /u2f/SignResponse and
/profile/, if the runtime state's Signer is null when the handler runs,
the handler responds 500 and performs no further work: the response is
exactly the 500 failure page and the state is returned unchanged (the
handlers modelled without a state component never write state in the
source). -/
theorem sealedGateReturns500 (env : Env) (now : Int) (state : RuntimeState) (r : Request)
    (h : state.Signer = none) :
    certGenHandler env now state r = writeFailureResponse r Response.empty 500 "" ∧
    loginHandler env now state r = (writeFailureResponse r Response.empty 500 "", state) ∧
    publicPathHandler env state r = writeFailureResponse r Response.empty 500 "" ∧
    u2fRegisterRequest env now state r = (writeFailureResponse r Response.empty 500 "", state) ∧
    u2fRegisterResponse env now state r = (writeFailureResponse r Response.empty 500 "", state) ∧
    u2fSignRequest env now state r = (writeFailureResponse r Response.empty 500 "", state) ∧
    u2fSignResponse env now state r = (writeFailureResponse r Response.empty 500 "", state) ∧
    profileHandler env now state r = writeFailureResponse r Response.empty 500 "" := by
  refine ⟨?_, ?_, ?_, ?_, ?_, ?_, ?_, ?_⟩
  · simp only [certGenHandler, h]
  · simp only [loginHandler, h]
  · simp only [publicPathHandler, h]
  · simp only [u2fRegisterRequest, h]
  · simp only [u2fRegisterResponse, h]
  · simp only [u2fSignRequest, h]
  · simp only [u2fSignResponse, h]
  · simp only [profileHandler, h]

/-- Witness for C1 at a concrete sealed state and request. -/
theorem sealedGateReturns500_witness :
    certGenHandler env0 0 stSealed req0 = writeFailureResponse req0 Response.empty 500 "" ∧
    loginHandler env0 0 stSealed req0 =
      (writeFailureResponse req0 Response.empty 500 "", stSealed) ∧
    publicPathHandler env0 stSealed req0 = writeFailureResponse req0 Response.empty 500 "" ∧
    u2fRegisterRequest env0 0 stSealed req0 =
      (writeFailureResponse req0 Response.empty 500 "", stSealed) ∧
    u2fRegisterResponse env0 0 stSealed req0 =
      (writeFailureResponse req0 Response.empty 500 "", stSealed) ∧
    u2fSignRequest env0 0 stSealed req0 =
      (writeFailureResponse req0 Response.empty 500 "", stSealed) ∧
    u2fSignResponse env0 0 stSealed req0 =
      (writeFailureResponse req0 Response.empty 500 "", stSealed) ∧
    profileHandler env0 0 stSealed req0 = writeFailureResponse req0 Response.empty 500 "" :=
  sealedGateReturns500 env0 0 stSealed req0 rfl

/-- Helper: loginHandler only touches the cookie map, never the Signer. -/
lemma loginHandler_Signer_eq (env : Env) (now : Int) (state : RuntimeState) (r : Request) :
    (loginHandler env now state r).2.Signer = state.Signer := by
  unfold loginHandler
  dsimp only
  repeat' split
  all_goals rfl

/-- Helper: u2fRegisterRequest never touches the Signer. -/
lemma u2fRegisterRequest_Signer_eq (env : Env) (now : Int) (state : RuntimeState)
    (r : Request) :
    (u2fRegisterRequest env now state r).2.Signer = state.Signer := by
  unfold u2fRegisterRequest
  dsimp only
  repeat' split
  all_goals rfl

/-- Helper: u2fRegisterResponse never touches the Signer. -/
lemma u2fRegisterResponse_Signer_eq (env : Env) (now : Int) (state : RuntimeState)
    (r : Request) :
    (u2fRegisterResponse env now state r).2.Signer = state.Signer := by
  unfold u2fRegisterResponse SaveUserProfiles
  dsimp only
  repeat' split
  all_goals rfl

/-- Helper: u2fSignRequest never touches the Signer. -/
lemma u2fSignRequest_Signer_eq (env : Env) (now : Int) (state : RuntimeState) (r : Request) :
    (u2fSignRequest env now state r).2.Signer = state.Signer := by
  unfold u2fSignRequest
  dsimp only
  repeat' split
  all_goals rfl

/-- Helper: u2fSignResponse never touches the Signer. -/
lemma u2fSignResponse_Signer_eq (env : Env) (now : Int) (state : RuntimeState) (r : Request) :
    (u2fSignResponse env now state r).2.Signer = state.Signer := by
  unfold u2fSignResponse SaveUserProfiles
  dsimp only
  repeat' split
  all_goals rfl

/-- Helper: with a non-null Signer, secretInjectorHandler returns the
state unchanged on every path. -/
lemma secretInjectorHandler_state_eq_of_some (env : Env) (state : RuntimeState) (r : Request)
    (s : Signer) (h : state.Signer = some s) :
    (secretInjectorHandler env state r).2 = state := by
  unfold secretInjectorHandler
  dsimp only
  repeat' split
  all_goals simp_all

/-- C2: the sealed-to-unsealed transition is one-way and one-shot.  Once
the Signer is set no handler and no cleanup pass ever changes it; an
unseal POST carrying TLS, a verified chain and the password field while
the Signer is non-null answers 409 and leaves the state untouched; a
first successful unseal answers 200 with body OK and installs the
signer, after which the identical request answers 409: 200 then 409. -/
theorem unsealOneShot :
    (∀ env now state r s, state.Signer = some s →
      (loginHandler env now state r).2.Signer = some s ∧
      (secretInjectorHandler env state r).2.Signer = some s ∧
      (u2fRegisterRequest env now state r).2.Signer = some s ∧
      (u2fRegisterResponse env now state r).2.Signer = some s ∧
      (u2fSignRequest env now state r).2.Signer = some s ∧
      (u2fSignResponse env now state r).2.Signer = some s ∧
      (performStateCleanupStep now state).Signer = some s) ∧
    (∀ env state r tlsState vals s, state.Signer = some s →
      r.tls = some tlsState → 1 ≤ tlsState.VerifiedChains.length →
      r.form.lookup "ssh_ca_password" = some vals →
      secretInjectorHandler env state r =
        (writeFailureResponse r Response.empty 409 "Conflict post, signer already unlocked",
         state)) ∧
    (∀ env state r tlsState vals ab md pt sg der, state.Signer = none →
      r.tls = some tlsState → 1 ≤ tlsState.VerifiedChains.length →
      r.form.lookup "ssh_ca_password" = some vals →
      env.armorDecode state.SSHCARawFileContent = some ab →
      env.readMessage ab (vals.headD "") = some md →
      env.readAll md = some pt →
      env.getSignerFromPEMBytes pt = some sg →
      generateCADer env state sg = some der →
      secretInjectorHandler env state r =
        ((Response.empty.writeHeader 200).write "OK\n",
         { state with caCertDer := some der, Signer := some sg }) ∧
      secretInjectorHandler env { state with caCertDer := some der, Signer := some sg } r =
        (writeFailureResponse r Response.empty 409 "Conflict post, signer already unlocked",
         { state with caCertDer := some der, Signer := some sg })) := by
  refine ⟨?_, ?_, ?_⟩
  · intro env now state r s h
    refine ⟨?_, ?_, ?_, ?_, ?_, ?_, ?_⟩
    · rw [loginHandler_Signer_eq]; exact h
    · rw [secretInjectorHandler_state_eq_of_some env state r s h]; exact h
    · rw [u2fRegisterRequest_Signer_eq]; exact h
    · rw [u2fRegisterResponse_Signer_eq]; exact h
    · rw [u2fSignRequest_Signer_eq]; exact h
    · rw [u2fSignResponse_Signer_eq]; exact h
    · exact h
  · intro env state r tlsState vals s hsig htls hlen hform
    unfold secretInjectorHandler
    rw [htls]
    simp only [hform, hsig]
    rw [if_neg (by omega)]
  · intro env state r tlsState vals ab md pt sg der hsig htls hlen hform hab hmd hpt hsg hder
    constructor
    · unfold secretInjectorHandler
      rw [htls]
      simp only [hform, hsig, hab, hmd, hpt, hsg, hder]
      rw [if_neg (by omega)]
    · unfold secretInjectorHandler
      rw [htls]
      simp only [hform]
      rw [if_neg (by omega)]

/-- Witness values for C2. -/
def reqInject : Request :=
  { method := "POST", path := SECRETINJECTOR_PATH,
    form := [("ssh_ca_password", ["passphrase"])],
    tls := some { VerifiedChains := [[{ commonName := "admin" }]] } }

/-- Witness for C2: at a concrete sealed state and inject request, the
first call gives 200 OK and installs the signer, the second gives 409,
and an already-unsealed state is never modified. -/
theorem unsealOneShot_witness :
    secretInjectorHandler env0 stSealed reqInject =
      ((Response.empty.writeHeader 200).write "OK\n",
       { stSealed with caCertDer := some ⟨0⟩, Signer := some ⟨0⟩ }) ∧
    secretInjectorHandler env0 { stSealed with caCertDer := some ⟨0⟩, Signer := some ⟨0⟩ }
        reqInject =
      (writeFailureResponse reqInject Response.empty 409
        "Conflict post, signer already unlocked",
       { stSealed with caCertDer := some ⟨0⟩, Signer := some ⟨0⟩ }) ∧
    (loginHandler env0 0 { stSealed with Signer := some ⟨3⟩ } req0).2.Signer = some ⟨3⟩ :=
  ⟨(unsealOneShot.2.2 env0 stSealed reqInject { VerifiedChains := [[{ commonName := "admin" }]] }
      ["passphrase"] ⟨0⟩ ⟨0⟩ ⟨0⟩ ⟨0⟩ ⟨0⟩ rfl rfl (by decide) rfl rfl rfl rfl rfl rfl).1,
   (unsealOneShot.2.2 env0 stSealed reqInject { VerifiedChains := [[{ commonName := "admin" }]] }
      ["passphrase"] ⟨0⟩ ⟨0⟩ ⟨0⟩ ⟨0⟩ ⟨0⟩ rfl rfl (by decide) rfl rfl rfl rfl rfl rfl).2,
   (unsealOneShot.1 env0 0 { stSealed with Signer := some ⟨3⟩ } req0 ⟨3⟩ rfl).1⟩

/-- Helper: the failure writer stamps its code on a fresh response. -/
lemma writeFailureResponse_status (r : Request) (code : Nat) (m : String) :
    (writeFailureResponse r Response.empty code m).status = some code := by
  unfold writeFailureResponse Response.write Response.writeHeader Response.setHeader
    Response.empty
  repeat' split
  all_goals simp_all
  all_goals split <;> rfl

/-- Helper: the certificate success tail stamps status 200. -/
lemma sendCertResponse_status (f c : String) :
    (sendCertResponse Response.empty f c).status = some 200 := by
  unfold sendCertResponse Response.write Response.writeHeader Response.setHeader Response.empty
  rfl

/-- Helper: http.Error stamps its code on a fresh response. -/
lemma httpError_status (m : String) (c : Nat) :
    (httpError Response.empty m c).status = some c := by
  unfold httpError Response.write Response.writeHeader Response.empty
  rfl

/-- Helper: http.NotFound stamps 404 on a fresh response. -/
lemma httpNotFound_status : (httpNotFound Response.empty).status = some 404 := by
  unfold httpNotFound Response.write Response.writeHeader Response.empty
  rfl

/-- C3: on /certgen/<target> with an authenticated identity, the handler
proceeds past the identity check if and only if the authenticated user
equals the path suffix exactly (String equality, i.e. byte equality of
the UTF-8 texts, with no trimming or folding); on any mismatch the
response is exactly the 403 failure page, and no branch other than the
mismatch branch ever produces a 403. -/
theorem certgenIdentityBinding (env : Env) (now : Int) (state : RuntimeState) (r : Request)
    (s : Signer) (authUser : String)
    (hs : state.Signer = some s)
    (hauth : checkAuth env now r state Response.empty = (.ok authUser, Response.empty)) :
    (authUser ≠ r.path.drop CERTGEN_PATH.length →
      certGenHandler env now state r = writeFailureResponse r Response.empty 403 "") ∧
    ((certGenHandler env now state r).status = some 403 ↔
      authUser ≠ r.path.drop CERTGEN_PATH.length) := by
  unfold certGenHandler
  simp only [hs, hauth]
  by_cases hne : authUser = r.path.drop CERTGEN_PATH.length
  · constructor
    · intro hcontra
      exact absurd hne hcontra
    · simp only [hne, ne_eq, not_true_eq_false, if_false, iff_false]
      unfold postAuthSSHCertHandler postAuthX509CertHandler
      repeat' split
      all_goals
        simp [writeFailureResponse_status, sendCertResponse_status, httpError_status,
          httpNotFound_status]
  · constructor
    · intro _
      simp only [ne_eq, hne, not_false_eq_true, if_true]
    · simp only [ne_eq, hne, not_false_eq_true, if_true, iff_true,
        writeFailureResponse_status]

/-- Witness values for C3: the session user is alice but the path
suffix carries a trailing space. -/
def stAuth : RuntimeState :=
  { Signer := some ⟨0⟩,
    authCookie := [("cookievalue", { ExpiresAt := 100, Username := "alice" })] }

def reqCertgenMismatch : Request :=
  { method := "GET", path := "/certgen/alice ",
    cookies := [(authCookieName, "cookievalue")] }

/-- Witness for C3: "alice" versus path suffix "alice " (trailing
space) is rejected with the 403 page — no trimming happens. -/
theorem certgenIdentityBinding_witness :
    certGenHandler env0 0 stAuth reqCertgenMismatch =
      writeFailureResponse reqCertgenMismatch Response.empty 403 "" ∧
    ((certGenHandler env0 0 stAuth reqCertgenMismatch).status = some 403 ↔
      "alice" ≠ reqCertgenMismatch.path.drop CERTGEN_PATH.length) :=
  ⟨(certgenIdentityBinding env0 0 stAuth reqCertgenMismatch ⟨0⟩ "alice" rfl rfl).1
      (by decide),
   (certgenIdentityBinding env0 0 stAuth reqCertgenMismatch ⟨0⟩ "alice" rfl rfl).2⟩

/-- Witness values for C4: a session entry whose expiry equals the
current instant, and one unknown cookie value. -/
def stC4 : RuntimeState :=
  { authCookie := [("cookievalue", { ExpiresAt := 0, Username := "alice" })] }

def reqC4 : Request := { cookies := [(authCookieName, "cookievalue")] }

def reqUnknownCookie : Request := { cookies := [(authCookieName, "nosuchvalue")] }

/-- Counterexample to C4 as stated: at now = 0 with a session entry
whose ExpiresAt is 0 — at, not strictly before, the current time —
cookie authentication succeeds and yields alice rather than the claimed
401 outcome, because checkAuth rejects only entries with ExpiresAt
strictly before now (time.Time.Before, main.go 398). -/
theorem checkAuthExpiryBoundary_cex :
    checkAuth env0 0 reqC4 stC4 Response.empty = (.ok "alice", Response.empty) := by
  rfl

/-- C4 (amended): for a request presenting an auth_cookie, cookie
authentication succeeds iff the value is a key of the session map whose
ExpiresAt is not strictly before the current time; a value never issued
yields the 401 Invalid Cookie outcome and an entry strictly past its
expiry yields the 401 Expired Cookie outcome.  At the exact expiry
instant the entry is still honoured. -/
theorem checkAuthSessionLookup (env : Env) (now : Int) (r : Request) (state : RuntimeState)
    (c : String) (hc : findAuthCookie r.cookies = some c) :
    (state.authCookie.lookup c = none →
      checkAuth env now r state Response.empty =
        (.error "Invalid Cookie", writeFailureResponse r Response.empty 401 "")) ∧
    (∀ info, state.authCookie.lookup c = some info → info.ExpiresAt < now →
      checkAuth env now r state Response.empty =
        (.error "Expired Cookie", writeFailureResponse r Response.empty 401 "")) ∧
    (∀ info, state.authCookie.lookup c = some info → now ≤ info.ExpiresAt →
      checkAuth env now r state Response.empty = (.ok info.Username, Response.empty)) ∧
    (∀ u w2, checkAuth env now r state Response.empty = (.ok u, w2) →
      ∃ info, state.authCookie.lookup c = some info ∧ info.Username = u ∧
        now ≤ info.ExpiresAt ∧ w2 = Response.empty) := by
  refine ⟨?_, ?_, ?_, ?_⟩
  · intro h
    unfold checkAuth
    simp only [hc, h]
  · intro info h hexp
    unfold checkAuth
    simp only [hc, h, if_pos hexp]
  · intro info h hexp
    unfold checkAuth
    simp only [hc, h]
    rw [if_neg (by omega)]
  · intro u w2 h
    unfold checkAuth at h
    simp only [hc] at h
    split at h
    · exact absurd h (by simp)
    · rename_i info heq
      split at h
      · exact absurd h (by simp)
      · rename_i hexp
        rw [Prod.mk.injEq] at h
        obtain ⟨h1, h2⟩ := h
        rw [Except.ok.injEq] at h1
        exact ⟨info, heq, h1, by omega, h2.symm⟩

/-- Witness for C4 (amended): an entry strictly past expiry yields 401
Expired Cookie, the boundary entry is honoured, and an unknown value
yields 401 Invalid Cookie. -/
theorem checkAuthSessionLookup_witness :
    checkAuth env0 5 reqC4 stC4 Response.empty =
      (.error "Expired Cookie", writeFailureResponse reqC4 Response.empty 401 "") ∧
    checkAuth env0 0 reqC4 stC4 Response.empty = (.ok "alice", Response.empty) ∧
    checkAuth env0 0 reqUnknownCookie stC4 Response.empty =
      (.error "Invalid Cookie", writeFailureResponse reqUnknownCookie Response.empty 401 "") :=
  ⟨(checkAuthSessionLookup env0 5 reqC4 stC4 "cookievalue" rfl).2.1
      { ExpiresAt := 0, Username := "alice" } rfl (by decide),
   (checkAuthSessionLookup env0 0 reqC4 stC4 "cookievalue" rfl).2.2.1
      { ExpiresAt := 0, Username := "alice" } rfl (by decide),
   (checkAuthSessionLookup env0 0 reqUnknownCookie stC4 "nosuchvalue" rfl).1 rfl⟩

/-- Helper: a successful pass of the registration loop splits the list
at the first entry the authenticator accepts; everything before it
failed, everything after it is untouched. -/
lemma authLoop_eq_some (env : Env) (sr : SignResponse) (ch : Challenge) :
    ∀ l newData, authLoop env sr ch l = some newData →
      ∃ pre d post nc,
        l = pre ++ d :: post ∧
        (∀ d2 ∈ pre, env.authenticate d2.Registration sr ch d2.Counter = none) ∧
        env.authenticate d.Registration sr ch d.Counter = some nc ∧
        newData = pre ++ { d with Counter := nc } :: post := by
  intro l
  induction l with
  | nil =>
    intro newData h
    simp [authLoop] at h
  | cons d rest ih =>
    intro newData h
    rw [authLoop] at h
    cases he : env.authenticate d.Registration sr ch d.Counter with
    | some nc =>
      rw [he] at h
      injection h with h
      exact ⟨[], d, rest, nc, by simp, by simp, he, h.symm⟩
    | none =>
      rw [he] at h
      cases hr : authLoop env sr ch rest with
      | none =>
        rw [hr] at h
        cases h
      | some rest2 =>
        rw [hr] at h
        injection h with h
        obtain ⟨pre, d2, post, nc, hsplit, hfail, hsucc, hnew⟩ := ih rest2 hr
        refine ⟨d :: pre, d2, post, nc, by simp [hsplit], ?_, hsucc, by simp [← h, hnew]⟩
        intro d3 hd3
        rcases List.mem_cons.mp hd3 with h3 | h3
        · rw [h3]
          exact he
        · exact hfail d3 h3

/-- C5: on /u2f/SignResponse by an authenticated user with at least one
registration and a pending auth challenge, the registrations are tried
in order and the first the authenticator verifies wins: its stored
counter becomes the reported value — strictly above the input counter
whenever the authenticator obeys the u2f library counter check, taken
as the hmono hypothesis because that library lives outside this
repository — the pending challenge is cleared, the profile map is
persisted, and the response is 200 with body success.  When no
registration verifies the response is the 500 error page and the state
is returned unchanged. -/
theorem u2fSignResponseOutcome (env : Env) (now : Int) (state : RuntimeState) (r : Request)
    (s : Signer) (authUser : String) (sr : SignResponse) (profile : userProfile)
    (ch : Challenge)
    (hs : state.Signer = some s)
    (hauth : checkAuth env now r state Response.empty = (.ok authUser, Response.empty))
    (hdec : env.decodeSignResponse r.body = .ok sr)
    (hprof : state.userProfile.lookup authUser = some profile)
    (hne : profile.U2fAuthData ≠ [])
    (hch : profile.u2fAuthChallenge = some ch)
    (hmono : ∀ reg n nc, env.authenticate reg sr ch n = some nc → n < nc) :
    (∀ newData, authLoop env sr ch profile.U2fAuthData = some newData →
      u2fSignResponse env now state r =
        (Response.empty.write "success",
         SaveUserProfiles
           { state with
             userProfile := setMap state.userProfile authUser
               { profile with U2fAuthData := newData, u2fAuthChallenge := none } }) ∧
      ∃ pre d post nc,
        profile.U2fAuthData = pre ++ d :: post ∧
        (∀ d2 ∈ pre, env.authenticate d2.Registration sr ch d2.Counter = none) ∧
        env.authenticate d.Registration sr ch d.Counter = some nc ∧
        newData = pre ++ { d with Counter := nc } :: post ∧
        d.Counter < nc) ∧
    (authLoop env sr ch profile.U2fAuthData = none →
      u2fSignResponse env now state r =
        (httpError Response.empty "error verifying response" 500, state)) ∧
    (Response.empty.write "success").status = some 200 ∧
    (Response.empty.write "success").body = "success" := by
  have hlen : ¬ (getRegistrationArray profile.U2fAuthData).length < 1 := by
    simpa [getRegistrationArray, Nat.lt_one_iff, List.length_eq_zero] using hne
  refine ⟨?_, ?_, rfl, rfl⟩
  · intro newData hloop
    constructor
    · unfold u2fSignResponse
      simp only [hs, hauth, hdec, hprof, hch, hloop, if_neg hlen]
    · obtain ⟨pre, d, post, nc, h1, h2, h3, h4⟩ :=
        authLoop_eq_some env sr ch profile.U2fAuthData newData hloop
      exact ⟨pre, d, post, nc, h1, h2, h3, h4, hmono d.Registration d.Counter nc h3⟩
  · intro hloop
    unfold u2fSignResponse
    simp only [hs, hauth, hdec, hprof, hch, hloop, if_neg hlen]

/-- Witness values for C5: two registrations; only the second one (id
1) verifies, reporting the input counter plus one. -/
def envSign : Env :=
  { env0 with
    decodeSignResponse := fun _ => .ok ⟨0⟩
    authenticate := fun reg _ _ n => if reg.id = 1 then some (n + 1) else none }

def profSign : userProfile :=
  { U2fAuthData :=
      [{ Counter := 5, Registration := ⟨0⟩ }, { Counter := 7, Registration := ⟨1⟩ }]
    u2fAuthChallenge := some ⟨2⟩ }

def stSign : RuntimeState :=
  { Signer := some ⟨0⟩
    authCookie := [("cookievalue", { ExpiresAt := 100, Username := "alice" })]
    userProfile := [("alice", profSign)] }

def reqSign : Request :=
  { method := "POST", path := "/u2f/SignResponse"
    cookies := [(authCookieName, "cookievalue")] }

/-- Witness for C5: the first registration fails, the second wins, its
counter advances from 7 to 8, the challenge is cleared and the map is
persisted. -/
theorem u2fSignResponseOutcome_witness :
    u2fSignResponse envSign 0 stSign reqSign =
      (Response.empty.write "success",
       SaveUserProfiles
         { stSign with
           userProfile := setMap stSign.userProfile "alice"
             { profSign with
               U2fAuthData :=
                 [{ Counter := 5, Registration := ⟨0⟩ },
                  { Counter := 8, Registration := ⟨1⟩ }]
               u2fAuthChallenge := none } }) :=
  ((u2fSignResponseOutcome envSign 0 stSign reqSign ⟨0⟩ "alice" ⟨0⟩ profSign ⟨2⟩ rfl rfl rfl
      rfl (by decide) rfl
      (by
        intro reg n nc h
        simp only [envSign, env0] at h
        by_cases hid : reg.id = 1
        · rw [if_pos hid] at h
          injection h with h
          omega
        · rw [if_neg hid] at h
          cases h)).1
    [{ Counter := 5, Registration := ⟨0⟩ }, { Counter := 8, Registration := ⟨1⟩ }] rfl).1

/-- A URL the loop of checkUserPassword skips: empty, unparsable, or a
transport-level failure. -/
def skippedUrl (env : Env) (bindDN password url : String) : Prop :=
  url.length < 1 ∨ env.checkLDAPUserPassword url bindDN password = .parseError ∨
    env.checkLDAPUserPassword url bindDN password = .transportError

/-- Helper: a definitive URL-loop answer comes from the first
non-skipped URL, in configuration order. -/
lemma ldapLoop_eq_some (env : Env) (bindDN password : String) :
    ∀ urls v, ldapLoop env bindDN password urls = some v →
      ∃ pre url post, urls = pre ++ url :: post ∧
        (∀ u ∈ pre, skippedUrl env bindDN password u) ∧
        1 ≤ url.length ∧
        env.checkLDAPUserPassword url bindDN password = .bindResult v := by
  intro urls
  induction urls with
  | nil =>
    intro v h
    simp [ldapLoop] at h
  | cons url rest ih =>
    intro v h
    rw [ldapLoop] at h
    by_cases hlen : url.length < 1
    · rw [if_pos hlen] at h
      obtain ⟨pre, u2, post, hsplit, hskip, hl, hres⟩ := ih v h
      refine ⟨url :: pre, u2, post, by simp [hsplit], ?_, hl, hres⟩
      intro u3 hu3
      rcases List.mem_cons.mp hu3 with h3 | h3
      · rw [h3]
        exact Or.inl hlen
      · exact hskip u3 h3
    · rw [if_neg hlen] at h
      cases he : env.checkLDAPUserPassword url bindDN password with
      | parseError =>
        rw [he] at h
        obtain ⟨pre, u2, post, hsplit, hskip, hl, hres⟩ := ih v h
        refine ⟨url :: pre, u2, post, by simp [hsplit], ?_, hl, hres⟩
        intro u3 hu3
        rcases List.mem_cons.mp hu3 with h3 | h3
        · rw [h3]
          exact Or.inr (Or.inl he)
        · exact hskip u3 h3
      | transportError =>
        rw [he] at h
        obtain ⟨pre, u2, post, hsplit, hskip, hl, hres⟩ := ih v h
        refine ⟨url :: pre, u2, post, by simp [hsplit], ?_, hl, hres⟩
        intro u3 hu3
        rcases List.mem_cons.mp hu3 with h3 | h3
        · rw [h3]
          exact Or.inr (Or.inr he)
        · exact hskip u3 h3
      | bindResult b =>
        rw [he] at h
        injection h with h
        refine ⟨[], url, rest, by simp, by simp, by omega, ?_⟩
        rw [he, h]

/-- C6 (amended): checkUserPassword tries the configured URLs in order,
returning (v, nil) for the first URL that completes a bind exchange
with verdict v and skipping empty, unparsable and transport-failing
entries; when no URL gives a definitive answer it falls back to the
htpasswd file when one is configured, returning its verdict as (v, nil)
but surfacing a read or check failure as (false, err); with no htpasswd
file configured the result is (false, nil). -/
theorem checkUserPasswordBackends (env : Env) (username password : String)
    (config : AppConfigFile) :
    (∀ v,
      ldapLoop env (convertToBindDN username config.Ldap.Bind_Pattern) password
          (splitOnComma config.Ldap.LDAP_Target_URLs) = some v →
      checkUserPassword env username password config = (v, none) ∧
      ∃ pre url post,
        splitOnComma config.Ldap.LDAP_Target_URLs = pre ++ url :: post ∧
        (∀ u ∈ pre,
          skippedUrl env (convertToBindDN username config.Ldap.Bind_Pattern) password u) ∧
        1 ≤ url.length ∧
        env.checkLDAPUserPassword url (convertToBindDN username config.Ldap.Bind_Pattern)
          password = .bindResult v) ∧
    (ldapLoop env (convertToBindDN username config.Ldap.Bind_Pattern) password
        (splitOnComma config.Ldap.LDAP_Target_URLs) = none →
      (config.Base.HtpasswdFilename = "" →
        checkUserPassword env username password config = (false, none)) ∧
      (∀ v, config.Base.HtpasswdFilename ≠ "" → env.htpasswd = .result v →
        checkUserPassword env username password config = (v, none)) ∧
      (∀ m, config.Base.HtpasswdFilename ≠ "" → env.htpasswd = .readError m →
        checkUserPassword env username password config = (false, some m)) ∧
      (∀ m, config.Base.HtpasswdFilename ≠ "" → env.htpasswd = .checkError m →
        checkUserPassword env username password config = (false, some m))) := by
  constructor
  · intro v hloop
    constructor
    · unfold checkUserPassword
      simp only [hloop]
    · exact ldapLoop_eq_some env _ password _ v hloop
  · intro hloop
    refine ⟨?_, ?_, ?_, ?_⟩
    · intro hh
      unfold checkUserPassword
      simp only [hloop]
      rw [if_neg (by simp [hh])]
    · intro v hh hht
      unfold checkUserPassword
      simp only [hloop, hht]
      rw [if_pos hh]
    · intro m hh hht
      unfold checkUserPassword
      simp only [hloop, hht]
      rw [if_pos hh]
    · intro m hh hht
      unfold checkUserPassword
      simp only [hloop, hht]
      rw [if_pos hh]

/-- Witness values for C6: the second URL answers, the first has a
transport failure. -/
def envC6w : Env :=
  { env0 with
    checkLDAPUserPassword := fun url _ _ =>
      if url = "ldaps://second" then .bindResult true else .transportError }

def cfgC6w : AppConfigFile :=
  { Ldap := { LDAP_Target_URLs := "ldaps://first,ldaps://second" } }

/-- Witness for C6 (amended): the transport failure on the first URL is
swallowed and the second URL's verdict is returned without error. -/
theorem checkUserPasswordBackends_witness :
    checkUserPassword envC6w "alice" "pw" cfgC6w = (true, none) :=
  ((checkUserPasswordBackends envC6w "alice" "pw" cfgC6w).1 true rfl).1

/-- Counterexample values for C6 as frozen: no usable URL, an htpasswd
file whose read fails. -/
def envC6 : Env := { env0 with htpasswd := .readError "read failure" }

def cfgC6 : AppConfigFile := { Base := { HtpasswdFilename := "/etc/htpasswd" } }

/-- Counterexample to C6 as stated: with no usable directory URL and a
configured htpasswd file whose read fails, no backend yielded a
definitive answer yet checkUserPassword surfaces the error — it returns
(false, some err), not the claimed error-free (false, nil)
(main.go 300-303). -/
theorem checkUserPasswordSurfacesError_cex :
    checkUserPassword envC6 "alice" "pw" cfgC6 = (false, some "read failure") := by
  rfl

/-- Counterexample profile for C7: a pending registration challenge and
a pending authentication challenge are both set. -/
def profC7 : userProfile :=
  { U2fAuthData := [{ Counter := 7, Registration := ⟨1⟩ }]
    RegistrationChallenge := some ⟨5⟩
    u2fAuthChallenge := some ⟨6⟩ }

/-- Counterexample to C7 as stated: RegistrationChallenge is an
exported field of userProfile (main.go 78), so gob persists it: after
the serialize/deserialize round trip the pending registration challenge
of this profile is still present, not null as claimed. -/
theorem gobKeepsRegistrationChallenge_cex :
    (gobProfileRoundTrip profC7).RegistrationChallenge = some ⟨5⟩ ∧
    ¬ (gobProfileRoundTrip profC7).RegistrationChallenge = none := by
  constructor
  · rfl
  · simp [gobProfileRoundTrip, profC7]

/-- C7 (amended): the persisted blob keeps, for each user, the
registration list with counters and the pending registration challenge
— both exported fields — while the unexported pending authentication
challenge is never persisted: after a round trip it is null and the
other two fields are unchanged; SaveUserProfiles writes exactly the
round-tripped map. -/
theorem gobProfileRoundTripSpec (p : userProfile) (state : RuntimeState) :
    (gobProfileRoundTrip p).U2fAuthData = p.U2fAuthData ∧
    (gobProfileRoundTrip p).RegistrationChallenge = p.RegistrationChallenge ∧
    (gobProfileRoundTrip p).u2fAuthChallenge = none ∧
    (SaveUserProfiles state).diskProfiles =
      some (state.userProfile.map fun kv => (kv.1, gobProfileRoundTrip kv.2)) :=
  ⟨rfl, rfl, rfl, rfl⟩

/-- C8: on an authenticated POST to the user's own /certgen/ path with
type ssh, a present multipart pubkeyfile is accepted iff it matches the
anchored source regex
(ssh-rsa or ssh-dss or ecdsa-sha2-nistp256 or ssh-ed25519, a space, a
base64 run, up to two equals signs, an optional space, at most 512
further non-newline characters and an optional final newline); a
mismatch yields exactly the 400 Invalid File, bad re page and nothing
else in this configuration yields a 400; on a match with a successful
signing call the response is 200 carrying the signed certificate with
the attachment Content-Disposition header. -/
theorem sshPubkeyRegexGate (env : Env) (now : Int) (state : RuntimeState) (r : Request)
    (s : Signer) (authUser : String) (sshSigner : SSHSigner) (content : String)
    (hs : state.Signer = some s)
    (hauth : checkAuth env now r state Response.empty = (.ok authUser, Response.empty))
    (htarget : r.path.drop CERTGEN_PATH.length = authUser)
    (hmethod : r.method = "POST")
    (hparse : env.parseMultipartFormOk = true)
    (htype : certTypeOf r = "ssh")
    (hsigner : env.newSignerFromSigner s = some sshSigner)
    (hfile : r.formFile = some content) :
    (pubkeyPatternMatch content = false →
      certGenHandler env now state r =
        writeFailureResponse r Response.empty 400 "Invalid File, bad re") ∧
    ((certGenHandler env now state r).status = some 400 ↔
      pubkeyPatternMatch content = false) ∧
    (∀ cert, pubkeyPatternMatch content = true →
      env.genSSHCertFromString authUser content sshSigner state.HostIdentity = some cert →
      certGenHandler env now state r = sendCertResponse Response.empty "id_rsa-cert.pub" cert ∧
      (sendCertResponse Response.empty "id_rsa-cert.pub" cert).headers.lookup
        "Content-Disposition" = some "attachment; filename=\"id_rsa-cert.pub\"" ∧
      (sendCertResponse Response.empty "id_rsa-cert.pub" cert).status = some 200) := by
  unfold certGenHandler postAuthSSHCertHandler
  simp only [hs, hauth, htarget, hmethod, hparse, htype, hsigner, hfile, ne_eq,
    not_true_eq_false, if_false]
  refine ⟨?_, ?_, ?_⟩
  · intro hm
    simp [hm]
  · by_cases hm : pubkeyPatternMatch content
    · cases hg : env.genSSHCertFromString authUser content sshSigner state.HostIdentity with
      | none =>
        simp [hm, hg, writeFailureResponse_status]
      | some cert =>
        simp [hm, hg, sendCertResponse_status]
    · rw [Bool.not_eq_true] at hm
      simp [hm, writeFailureResponse_status]
  · intro cert hm hgen
    refine ⟨by simp [hm, hgen], by rfl, sendCertResponse_status _ _⟩

/-- Witness values for C8: a well-formed and a malformed key file on
the authenticated user's own path. -/
def reqCertgenSSH : Request :=
  { method := "POST", path := "/certgen/alice"
    cookies := [(authCookieName, "cookievalue")]
    form := [("type", ["ssh"])]
    formFile := some "ssh-rsa AAAAB3NzaC1yc2E alice@host\n" }

def reqCertgenBad : Request :=
  { method := "POST", path := "/certgen/alice"
    cookies := [(authCookieName, "cookievalue")]
    form := [("type", ["ssh"])]
    formFile := some "not a public key" }

/-- Witness for C8: the well-formed key is signed and returned with the
attachment header; the malformed one is rejected with the 400 page. -/
theorem sshPubkeyRegexGate_witness :
    certGenHandler env0 0 stAuth reqCertgenSSH =
      sendCertResponse Response.empty "id_rsa-cert.pub" "sshcert" ∧
    (sendCertResponse Response.empty "id_rsa-cert.pub" "sshcert").headers.lookup
      "Content-Disposition" = some "attachment; filename=\"id_rsa-cert.pub\"" ∧
    certGenHandler env0 0 stAuth reqCertgenBad =
      writeFailureResponse reqCertgenBad Response.empty 400 "Invalid File, bad re" :=
  ⟨((sshPubkeyRegexGate env0 0 stAuth reqCertgenSSH ⟨0⟩ "alice" ⟨0⟩
        "ssh-rsa AAAAB3NzaC1yc2E alice@host\n" rfl rfl rfl rfl rfl rfl rfl rfl).2.2
      "sshcert" (by decide) rfl).1,
   ((sshPubkeyRegexGate env0 0 stAuth reqCertgenSSH ⟨0⟩ "alice" ⟨0⟩
        "ssh-rsa AAAAB3NzaC1yc2E alice@host\n" rfl rfl rfl rfl rfl rfl rfl rfl).2.2
      "sshcert" (by decide) rfl).2.1,
   (sshPubkeyRegexGate env0 0 stAuth reqCertgenBad ⟨0⟩ "alice" ⟨0⟩
        "not a public key" rfl rfl rfl rfl rfl rfl rfl rfl).1 (by decide)⟩

/-- C9: when an unseal attempt passes the TLS, client-chain, form and
already-unsealed checks but a decryption stage fails — the armor does
not decode, the passphrase is rejected by the message reader, the body
cannot be read, or the plaintext does not parse as a PEM private key —
the handler returns without writing any status or body (the client sees
no error status, only the implicit empty reply) and the state, in
particular the null Signer, is unchanged; a later attempt whose
passphrase works therefore still succeeds with 200 OK. -/
theorem unsealSilentFailure (env : Env) (state : RuntimeState) (r : Request)
    (tlsState : TLSState) (vals : List String)
    (hsig : state.Signer = none)
    (htls : r.tls = some tlsState)
    (hlen : 1 ≤ tlsState.VerifiedChains.length)
    (hform : r.form.lookup "ssh_ca_password" = some vals) :
    (env.armorDecode state.SSHCARawFileContent = none →
      secretInjectorHandler env state r = (Response.empty, state)) ∧
    (∀ ab, env.armorDecode state.SSHCARawFileContent = some ab →
      env.readMessage ab (vals.headD "") = none →
      secretInjectorHandler env state r = (Response.empty, state)) ∧
    (∀ ab md, env.armorDecode state.SSHCARawFileContent = some ab →
      env.readMessage ab (vals.headD "") = some md →
      env.readAll md = none →
      secretInjectorHandler env state r = (Response.empty, state)) ∧
    (∀ ab md pt, env.armorDecode state.SSHCARawFileContent = some ab →
      env.readMessage ab (vals.headD "") = some md →
      env.readAll md = some pt →
      env.getSignerFromPEMBytes pt = none →
      secretInjectorHandler env state r = (Response.empty, state)) ∧
    Response.empty.status = none ∧
    Response.empty.body = "" ∧
    (∀ r2 tls2 vals2 ab md pt sg der,
      r2.tls = some tls2 → 1 ≤ tls2.VerifiedChains.length →
      r2.form.lookup "ssh_ca_password" = some vals2 →
      env.armorDecode state.SSHCARawFileContent = some ab →
      env.readMessage ab (vals2.headD "") = some md →
      env.readAll md = some pt →
      env.getSignerFromPEMBytes pt = some sg →
      generateCADer env state sg = some der →
      secretInjectorHandler env state r2 =
        ((Response.empty.writeHeader 200).write "OK\n",
         { state with caCertDer := some der, Signer := some sg })) := by
  refine ⟨?_, ?_, ?_, ?_, rfl, rfl, ?_⟩
  · intro hab
    unfold secretInjectorHandler
    rw [htls]
    simp only [hform, hsig, hab]
    rw [if_neg (by omega)]
  · intro ab hab hmd
    unfold secretInjectorHandler
    rw [htls]
    simp only [hform, hsig, hab, hmd]
    rw [if_neg (by omega)]
  · intro ab md hab hmd hpt
    unfold secretInjectorHandler
    rw [htls]
    simp only [hform, hsig, hab, hmd, hpt]
    rw [if_neg (by omega)]
  · intro ab md pt hab hmd hpt hsg
    unfold secretInjectorHandler
    rw [htls]
    simp only [hform, hsig, hab, hmd, hpt, hsg]
    rw [if_neg (by omega)]
  · intro r2 tls2 vals2 ab md pt sg der htls2 hlen2 hform2 hab hmd hpt hsg hder
    unfold secretInjectorHandler
    rw [htls2]
    simp only [hform2, hsig, hab, hmd, hpt, hsg, hder]
    rw [if_neg (by omega)]

/-- Witness values for C9: the message reader accepts exactly one
passphrase. -/
def envC9 : Env :=
  { env0 with
    readMessage := fun _ pw => if pw = "correct horse" then some ⟨0⟩ else none }

def reqInjectWrong : Request :=
  { method := "POST", path := SECRETINJECTOR_PATH
    form := [("ssh_ca_password", ["wrong"])]
    tls := some { VerifiedChains := [[{ commonName := "admin" }]] } }

def reqInjectRight : Request :=
  { method := "POST", path := SECRETINJECTOR_PATH
    form := [("ssh_ca_password", ["correct horse"])]
    tls := some { VerifiedChains := [[{ commonName := "admin" }]] } }

/-- Witness for C9: the wrong passphrase produces the silent empty
response and leaves the state sealed; retrying with the right
passphrase on that same state unseals with 200 OK. -/
theorem unsealSilentFailure_witness :
    secretInjectorHandler envC9 stSealed reqInjectWrong = (Response.empty, stSealed) ∧
    secretInjectorHandler envC9 stSealed reqInjectRight =
      ((Response.empty.writeHeader 200).write "OK\n",
       { stSealed with caCertDer := some ⟨0⟩, Signer := some ⟨0⟩ }) :=
  ⟨(unsealSilentFailure envC9 stSealed reqInjectWrong
      { VerifiedChains := [[{ commonName := "admin" }]] } ["wrong"]
      rfl rfl (by decide) rfl).2.1 ⟨0⟩ rfl rfl,
   (unsealSilentFailure envC9 stSealed reqInjectWrong
      { VerifiedChains := [[{ commonName := "admin" }]] } ["wrong"]
      rfl rfl (by decide) rfl).2.2.2.2.2.2
     reqInjectRight { VerifiedChains := [[{ commonName := "admin" }]] } ["correct horse"]
     ⟨0⟩ ⟨0⟩ ⟨0⟩ ⟨0⟩ ⟨0⟩ rfl (by decide) rfl rfl rfl rfl rfl rfl⟩

/-- C10: within one unseal attempt the PGP prompt supplies the
candidate passphrase exactly once: the first invocation returns it and
flips the captured failed flag, and every later invocation returns the
decryption failed error, so a wrong passphrase makes the decryption
terminate with an error instead of prompting forever. -/
theorem promptSuppliesPassphraseOnce (password : String) :
    promptResult password 0 = .ok password ∧
    (∀ n, 1 ≤ n → promptResult password n = .error "decryption failed") ∧
    (∀ n, 1 ≤ n → promptState password n = true) := by
  have hstate : ∀ k, promptState password (k + 1) = true := by
    intro k
    induction k with
    | zero => rfl
    | succ k2 ih =>
      rw [promptState, ih]
      rfl
  refine ⟨rfl, ?_, ?_⟩
  · intro n hn
    obtain ⟨k, rfl⟩ : ∃ k, n = k + 1 := ⟨n - 1, by omega⟩
    rw [promptResult, hstate k]
    rfl
  · intro n hn
    obtain ⟨k, rfl⟩ : ∃ k, n = k + 1 := ⟨n - 1, by omega⟩
    exact hstate k

/-- Witness for C10: first call yields the passphrase, the second and
third calls fail. -/
theorem promptSuppliesPassphraseOnce_witness :
    promptResult "hunter2" 0 = .ok "hunter2" ∧
    promptResult "hunter2" 1 = .error "decryption failed" ∧
    promptResult "hunter2" 2 = .error "decryption failed" :=
  ⟨(promptSuppliesPassphraseOnce "hunter2").1,
   (promptSuppliesPassphraseOnce "hunter2").2.1 1 (by decide),
   (promptSuppliesPassphraseOnce "hunter2").2.1 2 (by decide)⟩

end Keymaster
